import Mathlib

/-!
Verification development for the `minimoog` repository (`minimoog.py`).

The source is a thin composition of pyo signal objects: the class `MiniMoog`
stores its parameters as Python attributes and, in each setter, rewrites the
corresponding attribute of the underlying pyo object graph.  We embed the
engine state as a Lean structure whose fields are

  * the stored Python attributes (`self._type1`, `self._mul1`, ...), and
  * the parameters currently baked into the pyo signal graph (the scalar
    constants the setters write into `osc1.mul`, `osc2.freq`, `filt.freq`,
    ...).  Signal-valued attributes are represented by the scalar constants
    appearing in them: e.g. `osc1.mul = ampmodmix * mul1` is represented by
    the factor `osc1mulFactor` with the amplitude-modulation sample kept as
    an explicit argument of the readout functions.

Python floats are modelled as real numbers.  The ADSR envelope generator,
which the source delegates to the pyo library class `MidiAdsr`, is modelled
from the specification over the rationals at the end of the file.
-/

/-- The constant `2**(1/12)` from the source (`minimoog.py`, lines 181, 184,
349, 359, 409, 419): the factor multiplying the semitone interval in the
derived frequency of oscillator 2 and oscillator 3. -/
noncomputable def semitoneFac : ℝ := Real.rpow 2 (1 / 12)

/-- State of a `MiniMoog` instance: the stored attributes of `__init__`
together with the scalar parameters currently wired into the pyo signal
graph. -/
structure MiniMoog where
  type1 : ℝ
  sharp1 : ℝ
  mul1 : ℝ
  type2 : ℝ
  sharp2 : ℝ
  mul2 : ℝ
  interval2 : ℝ
  range2 : ℝ
  switch3 : ℝ
  type3 : ℝ
  sharp3 : ℝ
  mul3 : ℝ
  interval3 : ℝ
  range3 : ℝ
  cutoffFact : ℝ
  res : ℝ
  voiceSel : ℝ
  mulWhiteNoise : ℝ
  mulPinkNoise : ℝ
  lfotremolo : ℝ
  selector_adsrtremolo : ℝ
  lfovibrato : ℝ
  selector_adsrvibrato : ℝ
  osc1type : ℝ
  osc1sharp : ℝ
  /-- `osc1.mul = ampmodmix * osc1mulFactor`. -/
  osc1mulFactor : ℝ
  osc2type : ℝ
  osc2sharp : ℝ
  /-- `osc2.mul = ampmodmix * osc2mulFactor`. -/
  osc2mulFactor : ℝ
  /-- `osc2.freq = (osc1.freq + semitoneFac * osc2freqInterval) * osc2freqRange`. -/
  osc2freqInterval : ℝ
  osc2freqRange : ℝ
  osc3type : ℝ
  osc3sharp : ℝ
  /-- `osc3.mul = ampmodmix * osc3mulFactor`. -/
  osc3mulFactor : ℝ
  osc3freqInterval : ℝ
  osc3freqRange : ℝ
  /-- `self._sel.voice` (0 = white noise, 1 = pink noise). -/
  selVoice : ℝ
  /-- `self._whitenoise.mul`. -/
  whiteMul : ℝ
  /-- `self._pinknoise.mul`. -/
  pinkMul : ℝ
  /-- `self._filt.freq = envfilt * 20000 * filtCutoffFactor`. -/
  filtCutoffFactor : ℝ
  filtRes : ℝ
  lfo1freq : ℝ
  lfo2freq : ℝ
  /-- `self._ampmodmix.voice` (0 = ADSR, 1 = tremolo LFO). -/
  ampmodmixVoice : ℝ
  /-- `self._freqmodmix.voice` (0 = no modulation, 1 = ADSR, 2 = vibrato). -/
  freqmodmixVoice : ℝ

/-- `MiniMoog.__init__` (lines 116-203): stores every argument verbatim and
builds the signal graph.  `osc3.mul = ampmodmix * mul3 * switch3`;
`whitenoise`/`pinknoise` are created with the pyo default `mul=1` (the
constructor never applies `mulWhiteNoise`/`mulPinkNoise` to them); the two
`Selector` objects are created with the pyo default `voice=0` (the
constructor never applies `selector_adsrtremolo`/`selector_adsrvibrato`). -/
def mkMiniMoog (type1 sharp1 mul1 type2 sharp2 mul2 interval2 range2
    switch3 type3 sharp3 mul3 interval3 range3 cutoffFact res
    voiceSel mulWhiteNoise mulPinkNoise
    lfotremolo selector_adsrtremolo lfovibrato selector_adsrvibrato : ℝ) :
    MiniMoog where
  type1 := type1
  sharp1 := sharp1
  mul1 := mul1
  type2 := type2
  sharp2 := sharp2
  mul2 := mul2
  interval2 := interval2
  range2 := range2
  switch3 := switch3
  type3 := type3
  sharp3 := sharp3
  mul3 := mul3
  interval3 := interval3
  range3 := range3
  cutoffFact := cutoffFact
  res := res
  voiceSel := voiceSel
  mulWhiteNoise := mulWhiteNoise
  mulPinkNoise := mulPinkNoise
  lfotremolo := lfotremolo
  selector_adsrtremolo := selector_adsrtremolo
  lfovibrato := lfovibrato
  selector_adsrvibrato := selector_adsrvibrato
  osc1type := type1
  osc1sharp := sharp1
  osc1mulFactor := mul1
  osc2type := type2
  osc2sharp := sharp2
  osc2mulFactor := mul2
  osc2freqInterval := interval2
  osc2freqRange := range2
  osc3type := type3
  osc3sharp := sharp3
  osc3mulFactor := mul3 * switch3
  osc3freqInterval := interval3
  osc3freqRange := range3
  selVoice := voiceSel
  whiteMul := 1
  pinkMul := 1
  filtCutoffFactor := cutoffFact
  filtRes := res
  lfo1freq := lfotremolo
  lfo2freq := lfovibrato
  ampmodmixVoice := 0
  freqmodmixVoice := 0

/-- `MiniMoog()` with the default arguments of `__init__` (line 116-121). -/
noncomputable def defaultMoog : MiniMoog :=
  mkMiniMoog 0 1 (1/2) 0 1 (1/10) 0 0 0 0 1 (1/10) 0 0 (1/2) (1/2)
    0 0 0 2 0 2 0

/-- `setType1` (lines 280-288). -/
def setType1 (s : MiniMoog) (x : ℝ) : MiniMoog :=
  { s with type1 := x, osc1type := x }

/-- `setSharp1` (lines 290-298). -/
def setSharp1 (s : MiniMoog) (x : ℝ) : MiniMoog :=
  { s with sharp1 := x, osc1sharp := x }

/-- `setMul1` (lines 300-308): `self._osc1.mul = x * self._ampmodmix`. -/
def setMul1 (s : MiniMoog) (x : ℝ) : MiniMoog :=
  { s with mul1 := x, osc1mulFactor := x }

/-- `setType2` (lines 311-319). -/
def setType2 (s : MiniMoog) (x : ℝ) : MiniMoog :=
  { s with type2 := x, osc2type := x }

/-- `setSharp2` (lines 321-329). -/
def setSharp2 (s : MiniMoog) (x : ℝ) : MiniMoog :=
  { s with sharp2 := x, osc2sharp := x }

/-- `setMul2` (lines 331-339). -/
def setMul2 (s : MiniMoog) (x : ℝ) : MiniMoog :=
  { s with mul2 := x, osc2mulFactor := x }

/-- `setInterval2` (lines 341-349): rewrites
`osc2.freq = (osc1.freq + 2**(1/12) * x) * self._range2`, baking in the
current `range2`. -/
def setInterval2 (s : MiniMoog) (x : ℝ) : MiniMoog :=
  { s with interval2 := x, osc2freqInterval := x, osc2freqRange := s.range2 }

/-- `setRange2` (lines 351-359): rewrites
`osc2.freq = (osc1.freq + 2**(1/12) * self._interval2) * x`. -/
def setRange2 (s : MiniMoog) (x : ℝ) : MiniMoog :=
  { s with range2 := x, osc2freqInterval := s.interval2, osc2freqRange := x }

/-- `setSwitch3` (lines 361-369): `self._osc3.mul = x * ampmodmix * self._mul3`. -/
def setSwitch3 (s : MiniMoog) (x : ℝ) : MiniMoog :=
  { s with switch3 := x, osc3mulFactor := x * s.mul3 }

/-- `setType3` (lines 371-379). -/
def setType3 (s : MiniMoog) (x : ℝ) : MiniMoog :=
  { s with type3 := x, osc3type := x }

/-- `setSharp3` (lines 381-389). -/
def setSharp3 (s : MiniMoog) (x : ℝ) : MiniMoog :=
  { s with sharp3 := x, osc3sharp := x }

/-- `setMul3` (lines 391-399): `self._osc3.mul = ampmodmix * x * self._switch3`. -/
def setMul3 (s : MiniMoog) (x : ℝ) : MiniMoog :=
  { s with mul3 := x, osc3mulFactor := x * s.switch3 }

/-- `setInterval3` (lines 401-409). -/
def setInterval3 (s : MiniMoog) (x : ℝ) : MiniMoog :=
  { s with interval3 := x, osc3freqInterval := x, osc3freqRange := s.range3 }

/-- `setRange3` (lines 411-419). -/
def setRange3 (s : MiniMoog) (x : ℝ) : MiniMoog :=
  { s with range3 := x, osc3freqInterval := s.interval3, osc3freqRange := x }

/-- `setVoiceSel` (lines 421-429). -/
def setVoiceSel (s : MiniMoog) (x : ℝ) : MiniMoog :=
  { s with voiceSel := x, selVoice := x }

/-- `setMulWhiteNoise` (lines 431-439). -/
def setMulWhiteNoise (s : MiniMoog) (x : ℝ) : MiniMoog :=
  { s with mulWhiteNoise := x, whiteMul := x }

/-- `setMulPinkNoise` (lines 441-449). -/
def setMulPinkNoise (s : MiniMoog) (x : ℝ) : MiniMoog :=
  { s with mulPinkNoise := x, pinkMul := x }

/-- `setCutoffFact` (lines 451-459): `self._filt.freq = self._envfilt * 20000 * x`. -/
def setCutoffFact (s : MiniMoog) (x : ℝ) : MiniMoog :=
  { s with cutoffFact := x, filtCutoffFactor := x }

/-- `setRes` (lines 461-469). -/
def setRes (s : MiniMoog) (x : ℝ) : MiniMoog :=
  { s with res := x, filtRes := x }

/-- `setLFOtremolo` (lines 471-479). -/
def setLFOtremolo (s : MiniMoog) (x : ℝ) : MiniMoog :=
  { s with lfotremolo := x, lfo1freq := x }

/-- `setLFOvibrato` (lines 482-490). -/
def setLFOvibrato (s : MiniMoog) (x : ℝ) : MiniMoog :=
  { s with lfovibrato := x, lfo2freq := x }

/-- `setSelectorADSRVibrato` (lines 492-500). -/
def setSelectorADSRVibrato (s : MiniMoog) (x : ℝ) : MiniMoog :=
  { s with selector_adsrvibrato := x, freqmodmixVoice := x }

/-- `setSelectorADSRTremolo` (lines 502-510). -/
def setSelectorADSRTremolo (s : MiniMoog) (x : ℝ) : MiniMoog :=
  { s with selector_adsrtremolo := x, ampmodmixVoice := x }

/-- The frequency of oscillator 2 as a function of oscillator 1's current
frequency `f`: the expression `(osc1.freq + 2**(1/12)*interval)*range`
wired into `osc2.freq` (lines 181, 349, 359). -/
noncomputable def osc2freqAt (s : MiniMoog) (f : ℝ) : ℝ :=
  (f + semitoneFac * s.osc2freqInterval) * s.osc2freqRange

/-- The frequency of oscillator 3 as a function of oscillator 1's current
frequency `f` (lines 184, 409, 419). -/
noncomputable def osc3freqAt (s : MiniMoog) (f : ℝ) : ℝ :=
  (f + semitoneFac * s.osc3freqInterval) * s.osc3freqRange

/-- Output sample of oscillator 1: raw waveform sample `w1` times
`osc1.mul = ampmodmix * mul1`, with `a` the amplitude-modulation sample
(line 179). -/
def osc1out (s : MiniMoog) (a w1 : ℝ) : ℝ :=
  w1 * (a * s.osc1mulFactor)

/-- Output sample of oscillator 2: its own scaled waveform sample plus
oscillator 1's output (`add=self._osc1`, line 182). -/
def osc2out (s : MiniMoog) (a w1 w2 : ℝ) : ℝ :=
  w2 * (a * s.osc2mulFactor) + osc1out s a w1

/-- The third oscillator's own contribution to the bank sum:
`w3 * (ampmodmix * mul3 * switch3)` (line 185). -/
def osc3contrib (s : MiniMoog) (a w3 : ℝ) : ℝ :=
  w3 * (a * s.osc3mulFactor)

/-- Output of the oscillator bank: oscillator 3's scaled waveform sample
plus the sum of the first two oscillators (`add=self._osc2`, line 185). -/
def bankOut (s : MiniMoog) (a w1 w2 w3 : ℝ) : ℝ :=
  osc3contrib s a w3 + osc2out s a w1 w2

/-- The cutoff frequency handed to the ladder filter as a function of the
filter-envelope sample `e`: `envfilt * 20000 * cutoffFact` (lines 196, 459). -/
def filtFreqAt (s : MiniMoog) (e : ℝ) : ℝ :=
  e * 20000 * s.filtCutoffFactor

/-- Modelled from the spec: the 2-input interpolating `Selector` used for the
amplitude-modulation mix is pyo library code, not part of this repository.
Section 4.4 of the spec: a linear crossfade between the two sources, blend
position 0 = pure first input (ADSR envelope), 1 = pure second input
(tremolo LFO). -/
def selector2 (voice a b : ℝ) : ℝ :=
  (1 - voice) * a + voice * b

/-- The amplitude-modulation mix `self._ampmodmix` (line 170) as a function
of the envelope sample `e` and the tremolo-LFO sample `t`. -/
def ampModAt (s : MiniMoog) (e t : ℝ) : ℝ :=
  selector2 s.ampmodmixVoice e t

/-- Modelled from the spec: the noise-voice `Selector` (line 190) is pyo
library code, not part of this repository.  Section 4.6 of the spec: the
selector chooses exactly one voice's output (hard switch), and the output is
the chosen voice times its gain; the gains are the `mul` attributes written
by `setMulWhiteNoise`/`setMulPinkNoise` in the source.  `w` is the raw white
noise sample, `p` the raw pink noise sample. -/
noncomputable def noiseOut (s : MiniMoog) (w p : ℝ) : ℝ :=
  if s.selVoice = 0 then w * s.whiteMul else p * s.pinkMul

lemma semitoneFac_pos : 0 < semitoneFac :=
  Real.rpow_pos_of_pos (by norm_num) _

lemma semitoneFac_le_two : semitoneFac ≤ 2 := by
  have h : (2 : ℝ) ^ ((1 : ℝ) / 12) ≤ (2 : ℝ) ^ (1 : ℝ) :=
    Real.rpow_le_rpow_of_exponent_le (by norm_num) (by norm_num)
  rw [Real.rpow_one] at h
  exact h

/-- Claim C1, counterexample: with `interval2 = 12` and `range2 = 1`, osc2's
frequency at osc1 frequency 440 is `(440 + 2^(1/12)*12)*1 ≈ 452.7`, not
`2*440 = 880`: the source adds `2^(1/12)` Hz per semitone instead of
multiplying by `2^(interval/12)`. -/
theorem c1_counterexample :
    osc2freqAt (setRange2 (setInterval2 defaultMoog 12) 1) 440 ≠ 2 * 440 := by
  have h1 := semitoneFac_le_two
  have h2 := semitoneFac_pos
  show (440 + semitoneFac * 12) * 1 ≠ 2 * 440
  intro h
  nlinarith

/-- Claim C1, amended: for every state and every current osc1 frequency `f`,
setting `interval2 = 12` and `range2 = 1` makes osc2's frequency exactly
`f + 12 * 2^(1/12)` (the code's additive detune law
`(freq1 + 2^(1/12) * interval2) * range2`), not `2 * f`. -/
theorem c1_amended_additive_detune (s : MiniMoog) (f : ℝ) :
    osc2freqAt (setRange2 (setInterval2 s 12) 1) f = f + 12 * semitoneFac := by
  show (f + semitoneFac * 12) * 1 = f + 12 * semitoneFac
  ring

/-- Claim C2, counterexample: out-of-range values are not clamped before
being used in the signal path.  `setMul1 2` (documented range 0..1) writes
the factor 2 into `osc1.mul`; `setSelectorADSRVibrato 3` (documented range
0..2) writes voice position 3 into the frequency-modulation selector;
`setRes 2` (documented range 0..1) writes resonance 2 into the filter. -/
theorem c2_counterexample :
    (setMul1 defaultMoog 2).osc1mulFactor = 2 ∧
    ¬ (setMul1 defaultMoog 2).osc1mulFactor ≤ 1 ∧
    (setSelectorADSRVibrato defaultMoog 3).freqmodmixVoice = 3 ∧
    ¬ (setSelectorADSRVibrato defaultMoog 3).freqmodmixVoice ≤ 2 ∧
    (setRes defaultMoog 2).filtRes = 2 ∧
    ¬ (setRes defaultMoog 2).filtRes ≤ 1 := by
  refine ⟨rfl, ?_, rfl, ?_, rfl, ?_⟩
  · show ¬ (2:ℝ) ≤ 1
    norm_num
  · show ¬ (3:ℝ) ≤ 2
    norm_num
  · show ¬ (2:ℝ) ≤ 1
    norm_num

/-- Claim C2, amended: for every parameter setter of the engine and every
input value, the value is stored and applied to the signal path verbatim —
never clamped and never rejected (the setters are total functions, so no
input raises). -/
theorem c2_amended_setters_verbatim (s : MiniMoog) (x : ℝ) :
    (setMul1 s x).mul1 = x ∧ (setMul1 s x).osc1mulFactor = x ∧
    (setSelectorADSRVibrato s x).selector_adsrvibrato = x ∧
    (setSelectorADSRVibrato s x).freqmodmixVoice = x ∧
    (setRes s x).res = x ∧ (setRes s x).filtRes = x ∧
    (setSelectorADSRTremolo s x).selector_adsrtremolo = x ∧
    (setSelectorADSRTremolo s x).ampmodmixVoice = x ∧
    (setCutoffFact s x).cutoffFact = x ∧ (setCutoffFact s x).filtCutoffFactor = x :=
  ⟨rfl, rfl, rfl, rfl, rfl, rfl, rfl, rfl, rfl, rfl⟩

/-- Claim C3, counterexample: the cutoff handed to the ladder filter is the
raw product `e * 20000 * cutoffFact` with no pre-clamping.  At the
documented-range setting `cutoffFact = 1` and filter-envelope sample
`e = 0.65` (the envelope's configured peak, `mul=0.65`), the cutoff is
13000 Hz, which is not below Nyquist/2 = 11025 Hz at the engine's default
44100 Hz sample rate. -/
theorem c3_counterexample :
    filtFreqAt (setCutoffFact defaultMoog 1) (13 / 20) = 13000 ∧
    ¬ filtFreqAt (setCutoffFact defaultMoog 1) (13 / 20) < 22050 / 2 := by
  constructor
  · show (13:ℝ) / 20 * 20000 * 1 = 13000
    norm_num
  · show ¬ (13:ℝ) / 20 * 20000 * 1 < 22050 / 2
    norm_num

/-- Claim C3, amended: for every filter-envelope sample `e` and every value
`x` given to `setCutoffFact`, the ladder filter's cutoff equals
`e * 20000 * x` exactly; the product is forwarded to the filter unmodified,
with no clamping below Nyquist/2 (or any other bound) in this code. -/
theorem c3_amended_cutoff_formula (s : MiniMoog) (x e : ℝ) :
    filtFreqAt (setCutoffFact s x) e = e * 20000 * x :=
  rfl

/-- Claim C4: with `switch3 = 0` the third oscillator's own contribution to
the bank sum is exactly zero (`osc3.mul = ampmodmix * mul3 * 0`), so the
bank output equals osc1 + osc2 exactly, whatever the waveform samples, the
amplitude-modulation sample, and the other osc3 parameters subsequently set
(`type3`, `sharp3`, `mul3`, `interval3`, `range3`, the tremolo selector). -/
theorem c4_osc3_disabled_exact_zero (s : MiniMoog) (y a w1 w2 w3 : ℝ) :
    osc3contrib (setSwitch3 s 0) a w3 = 0 ∧
    bankOut (setSwitch3 s 0) a w1 w2 w3 = osc2out s a w1 w2 ∧
    bankOut (setType3 (setSwitch3 s 0) y) a w1 w2 w3 = osc2out s a w1 w2 ∧
    bankOut (setSharp3 (setSwitch3 s 0) y) a w1 w2 w3 = osc2out s a w1 w2 ∧
    bankOut (setMul3 (setSwitch3 s 0) y) a w1 w2 w3 = osc2out s a w1 w2 ∧
    bankOut (setInterval3 (setSwitch3 s 0) y) a w1 w2 w3 = osc2out s a w1 w2 ∧
    bankOut (setRange3 (setSwitch3 s 0) y) a w1 w2 w3 = osc2out s a w1 w2 ∧
    bankOut (setSelectorADSRTremolo (setSwitch3 s 0) y) a w1 w2 w3 = osc2out s a w1 w2 := by
  refine ⟨?_, ?_, ?_, ?_, ?_, ?_, ?_, ?_⟩ <;>
    simp [bankOut, osc3contrib, osc2out, osc1out, setSwitch3, setType3, setSharp3,
      setMul3, setInterval3, setRange3, setSelectorADSRTremolo]

/-- Claim C5: the amplitude-modulation blend at position 0 is the pure
envelope sample, at position 1 the pure tremolo-LFO sample, and at position
1/2 the arithmetic mean of the two (linear crossfade). -/
theorem c5_amp_blend_positions (s : MiniMoog) (e t : ℝ) :
    ampModAt (setSelectorADSRTremolo s 0) e t = e ∧
    ampModAt (setSelectorADSRTremolo s 1) e t = t ∧
    ampModAt (setSelectorADSRTremolo s (1 / 2)) e t = (e + t) / 2 := by
  refine ⟨?_, ?_, ?_⟩
  · show (1 - (0:ℝ)) * e + 0 * t = e
    ring
  · show (1 - (1:ℝ)) * e + 1 * t = t
    ring
  · show (1 - (1:ℝ) / 2) * e + 1 / 2 * t = (e + t) / 2
    ring

/-- Claim C6, counterexample: with `voiceSel = 0`, `mulWhiteNoise = 0` and
`mulPinkNoise = 1`, the selector outputs the white voice scaled by its own
gain 0, i.e. identically zero — silence, not pure white noise (here the raw
white sample is 1/2 and the output is 0, not 1/2). -/
theorem c6_counterexample :
    noiseOut (setVoiceSel (setMulPinkNoise (setMulWhiteNoise defaultMoog 0) 1) 0)
        (1 / 2) (1 / 3) = 0 ∧
    noiseOut (setVoiceSel (setMulPinkNoise (setMulWhiteNoise defaultMoog 0) 1) 0)
        (1 / 2) (1 / 3) ≠ 1 / 2 := by
  have h : noiseOut (setVoiceSel (setMulPinkNoise (setMulWhiteNoise defaultMoog 0) 1) 0)
      (1 / 2) (1 / 3) = 0 := by
    show (if (0:ℝ) = 0 then (1:ℝ) / 2 * 0 else (1:ℝ) / 3 * 1) = 0
    rw [if_pos rfl]
    ring
  refine ⟨h, ?_⟩
  rw [h]
  norm_num

/-- Claim C6, amended: at `voiceSel = 0` the noise output is the white
voice's samples times the white gain — pure white noise requires
`mulWhiteNoise = 1` (with `mulPinkNoise = 0` irrelevant to the output) —
and at `voiceSel = 1` under the reversed gains (`mulPinkNoise = 1`,
`mulWhiteNoise = 0`) it is exactly the pink voice's samples. -/
theorem c6_amended_selected_voice_gain (s : MiniMoog) (w p : ℝ) :
    noiseOut (setVoiceSel (setMulPinkNoise (setMulWhiteNoise s 1) 0) 0) w p = w ∧
    noiseOut (setVoiceSel (setMulPinkNoise (setMulWhiteNoise s 0) 1) 1) w p = p := by
  constructor
  · show (if (0:ℝ) = 0 then w * 1 else p * 0) = w
    rw [if_pos rfl]
    ring
  · show (if (1:ℝ) = 0 then w * 0 else p * 1) = p
    rw [if_neg (by norm_num)]
    ring

/-- Claim C8: setting `interval2 = 0` and `range2 = 1` (in either order)
makes osc2's frequency exactly equal to osc1's frequency:
`(f + 2^(1/12)*0) * 1 = f`. -/
theorem c8_identity_case (s : MiniMoog) (f : ℝ) :
    osc2freqAt (setRange2 (setInterval2 s 0) 1) f = f ∧
    osc2freqAt (setInterval2 (setRange2 s 1) 0) f = f := by
  constructor
  · show (f + semitoneFac * 0) * 1 = f
    ring
  · show (f + semitoneFac * 0) * 1 = f
    ring

/-- Claim C9: for every public parameter, calling the setter with any value
`x` — in or out of the documented range — and then reading the
corresponding getter property returns exactly `x`: values are stored
verbatim, unmodified. -/
theorem c9_set_get_roundtrip (s : MiniMoog) (x : ℝ) :
    (setType1 s x).type1 = x ∧ (setSharp1 s x).sharp1 = x ∧ (setMul1 s x).mul1 = x ∧
    (setType2 s x).type2 = x ∧ (setSharp2 s x).sharp2 = x ∧ (setMul2 s x).mul2 = x ∧
    (setInterval2 s x).interval2 = x ∧ (setRange2 s x).range2 = x ∧
    (setSwitch3 s x).switch3 = x ∧ (setType3 s x).type3 = x ∧
    (setSharp3 s x).sharp3 = x ∧ (setMul3 s x).mul3 = x ∧
    (setInterval3 s x).interval3 = x ∧ (setRange3 s x).range3 = x ∧
    (setVoiceSel s x).voiceSel = x ∧ (setMulWhiteNoise s x).mulWhiteNoise = x ∧
    (setMulPinkNoise s x).mulPinkNoise = x ∧ (setCutoffFact s x).cutoffFact = x ∧
    (setRes s x).res = x ∧ (setLFOtremolo s x).lfotremolo = x ∧
    (setLFOvibrato s x).lfovibrato = x ∧
    (setSelectorADSRTremolo s x).selector_adsrtremolo = x ∧
    (setSelectorADSRVibrato s x).selector_adsrvibrato = x :=
  ⟨rfl, rfl, rfl, rfl, rfl, rfl, rfl, rfl, rfl, rfl, rfl, rfl, rfl, rfl, rfl, rfl,
    rfl, rfl, rfl, rfl, rfl, rfl, rfl⟩

/-- Claim C10: `setInterval2 x` changes only the stored `interval2`
attribute and osc2's frequency input (its baked interval becomes `x`, its
baked range is rewritten to the current `range2`); every other stored
attribute and every other signal-graph parameter — osc1's, osc3's, the
filter's, the noise generator's, the LFOs' and the selectors' — is
unchanged. -/
theorem c10_setInterval2_frame (s : MiniMoog) (x : ℝ) :
    (setInterval2 s x).interval2 = x ∧
    (setInterval2 s x).osc2freqInterval = x ∧
    (setInterval2 s x).osc2freqRange = s.range2 ∧
    (setInterval2 s x).type1 = s.type1 ∧ (setInterval2 s x).sharp1 = s.sharp1 ∧
    (setInterval2 s x).mul1 = s.mul1 ∧ (setInterval2 s x).type2 = s.type2 ∧
    (setInterval2 s x).sharp2 = s.sharp2 ∧ (setInterval2 s x).mul2 = s.mul2 ∧
    (setInterval2 s x).range2 = s.range2 ∧ (setInterval2 s x).switch3 = s.switch3 ∧
    (setInterval2 s x).type3 = s.type3 ∧ (setInterval2 s x).sharp3 = s.sharp3 ∧
    (setInterval2 s x).mul3 = s.mul3 ∧ (setInterval2 s x).interval3 = s.interval3 ∧
    (setInterval2 s x).range3 = s.range3 ∧ (setInterval2 s x).cutoffFact = s.cutoffFact ∧
    (setInterval2 s x).res = s.res ∧ (setInterval2 s x).voiceSel = s.voiceSel ∧
    (setInterval2 s x).mulWhiteNoise = s.mulWhiteNoise ∧
    (setInterval2 s x).mulPinkNoise = s.mulPinkNoise ∧
    (setInterval2 s x).lfotremolo = s.lfotremolo ∧
    (setInterval2 s x).selector_adsrtremolo = s.selector_adsrtremolo ∧
    (setInterval2 s x).lfovibrato = s.lfovibrato ∧
    (setInterval2 s x).selector_adsrvibrato = s.selector_adsrvibrato ∧
    (setInterval2 s x).osc1type = s.osc1type ∧ (setInterval2 s x).osc1sharp = s.osc1sharp ∧
    (setInterval2 s x).osc1mulFactor = s.osc1mulFactor ∧
    (setInterval2 s x).osc2type = s.osc2type ∧ (setInterval2 s x).osc2sharp = s.osc2sharp ∧
    (setInterval2 s x).osc2mulFactor = s.osc2mulFactor ∧
    (setInterval2 s x).osc3type = s.osc3type ∧ (setInterval2 s x).osc3sharp = s.osc3sharp ∧
    (setInterval2 s x).osc3mulFactor = s.osc3mulFactor ∧
    (setInterval2 s x).osc3freqInterval = s.osc3freqInterval ∧
    (setInterval2 s x).osc3freqRange = s.osc3freqRange ∧
    (setInterval2 s x).selVoice = s.selVoice ∧
    (setInterval2 s x).whiteMul = s.whiteMul ∧ (setInterval2 s x).pinkMul = s.pinkMul ∧
    (setInterval2 s x).filtCutoffFactor = s.filtCutoffFactor ∧
    (setInterval2 s x).filtRes = s.filtRes ∧
    (setInterval2 s x).lfo1freq = s.lfo1freq ∧ (setInterval2 s x).lfo2freq = s.lfo2freq ∧
    (setInterval2 s x).ampmodmixVoice = s.ampmodmixVoice ∧
    (setInterval2 s x).freqmodmixVoice = s.freqmodmixVoice :=
  ⟨rfl, rfl, rfl, rfl, rfl, rfl, rfl, rfl, rfl, rfl, rfl, rfl, rfl, rfl, rfl, rfl,
    rfl, rfl, rfl, rfl, rfl, rfl, rfl, rfl, rfl, rfl, rfl, rfl, rfl, rfl, rfl, rfl,
    rfl, rfl, rfl, rfl, rfl, rfl, rfl, rfl, rfl, rfl, rfl, rfl, rfl⟩

/-- Stage of the ADSR envelope state machine (spec, section 3:
`EnvelopeState.stage`). -/
inductive EnvStage where
  | Idle
  | Attack
  | Decay
  | Sustain
  | Release

/-- State of the ADSR envelope generator: current stage and level (spec,
section 3: `EnvelopeState`). -/
structure EnvState where
  stage : EnvStage
  level : ℚ

/-- Per-step rates of the envelope (level advance per update step in the
Attack, Decay and Release stages) and the sustain level. -/
structure AdsrRates where
  attack : ℚ
  decay : ℚ
  release : ℚ
  sustain : ℚ

/-- Modelled from the spec: the ADSR envelope generator the source
instantiates as the pyo library class `MidiAdsr` (lines 166 and 193), whose
state machine is not part of this repository.  One update step of the
machine of section 4.2: gate-on drives Idle to Attack, Attack rises to 1
then enters Decay, Decay falls to the sustain level then enters Sustain,
Sustain holds, and gate-on during Release retriggers Attack from the
current level; gate-off from any non-Idle stage enters Release, which falls
to 0 and then enters Idle. -/
def envStep (p : AdsrRates) (gate : Bool) (s : EnvState) : EnvState :=
  match gate, s.stage with
  | true, EnvStage.Idle => ⟨EnvStage.Attack, s.level⟩
  | true, EnvStage.Attack =>
      if 1 ≤ s.level + p.attack then ⟨EnvStage.Decay, 1⟩
      else ⟨EnvStage.Attack, s.level + p.attack⟩
  | true, EnvStage.Decay =>
      if s.level - p.decay ≤ p.sustain then ⟨EnvStage.Sustain, p.sustain⟩
      else ⟨EnvStage.Decay, s.level - p.decay⟩
  | true, EnvStage.Sustain => ⟨EnvStage.Sustain, s.level⟩
  | true, EnvStage.Release => ⟨EnvStage.Attack, s.level⟩
  | false, EnvStage.Idle => s
  | false, EnvStage.Release =>
      if s.level - p.release ≤ 0 then ⟨EnvStage.Idle, 0⟩
      else ⟨EnvStage.Release, s.level - p.release⟩
  | false, _ => ⟨EnvStage.Release, s.level⟩

/-- The state-machine contract of the envelope generator, as claimed:
gate-on transitions Idle to Attack; the level is monotone nondecreasing
through Attack and leaves Attack only to Decay on reaching 1 (and does
reach it); Decay is monotone nonincreasing down to the sustain level and
leaves only to Sustain on reaching it (and does reach it); Sustain holds;
gate-off from any non-Idle stage enters Release with nonincreasing level
and eventually reaches Idle at level 0. -/
def AdsrMachineSpec (p : AdsrRates) : Prop :=
  (∀ l : ℚ, (envStep p true ⟨EnvStage.Idle, l⟩).stage = EnvStage.Attack ∧
      (envStep p true ⟨EnvStage.Idle, l⟩).level = l) ∧
  (∀ s : EnvState, s.stage = EnvStage.Attack → s.level ≤ 1 →
      s.level ≤ (envStep p true s).level ∧ (envStep p true s).level ≤ 1 ∧
      ((envStep p true s).stage = EnvStage.Attack ∨
        envStep p true s = ⟨EnvStage.Decay, 1⟩)) ∧
  (∀ s : EnvState, s.stage = EnvStage.Attack → s.level ≤ 1 →
      ∃ n : ℕ, (envStep p true)^[n] s = ⟨EnvStage.Decay, 1⟩) ∧
  (∀ s : EnvState, s.stage = EnvStage.Decay → p.sustain ≤ s.level →
      (envStep p true s).level ≤ s.level ∧ p.sustain ≤ (envStep p true s).level ∧
      ((envStep p true s).stage = EnvStage.Decay ∨
        envStep p true s = ⟨EnvStage.Sustain, p.sustain⟩)) ∧
  (∀ s : EnvState, s.stage = EnvStage.Decay → p.sustain ≤ s.level →
      ∃ n : ℕ, (envStep p true)^[n] s = ⟨EnvStage.Sustain, p.sustain⟩) ∧
  (∀ s : EnvState, s.stage = EnvStage.Sustain → envStep p true s = s) ∧
  (∀ s : EnvState, s.stage ≠ EnvStage.Idle → 0 ≤ s.level →
      (envStep p false s).level ≤ s.level ∧
      ((envStep p false s).stage = EnvStage.Release ∨
        envStep p false s = ⟨EnvStage.Idle, 0⟩)) ∧
  (∀ s : EnvState, s.stage ≠ EnvStage.Idle → 0 ≤ s.level →
      ∃ n : ℕ, (envStep p false)^[n] s = ⟨EnvStage.Idle, 0⟩)

lemma attack_reaches_decay (p : AdsrRates) (hA : 0 < p.attack) :
    ∀ k : ℕ, ∀ l : ℚ, 1 - l ≤ k * p.attack →
      ∃ n : ℕ, (envStep p true)^[n] ⟨EnvStage.Attack, l⟩ = ⟨EnvStage.Decay, 1⟩ := by
  intro k
  induction k with
  | zero =>
    intro l hl
    have h1 : 1 ≤ l + p.attack := by push_cast at hl; linarith
    exact ⟨1, by simp [envStep, h1]⟩
  | succ k ih =>
    intro l hl
    by_cases h1 : 1 ≤ l + p.attack
    · exact ⟨1, by simp [envStep, h1]⟩
    · have step : envStep p true ⟨EnvStage.Attack, l⟩ = ⟨EnvStage.Attack, l + p.attack⟩ := by
        simp [envStep, h1]
      have hl' : 1 - (l + p.attack) ≤ k * p.attack := by push_cast at hl ⊢; linarith
      obtain ⟨n, hn⟩ := ih (l + p.attack) hl'
      exact ⟨n + 1, by rw [Function.iterate_succ_apply, step]; exact hn⟩

lemma decay_reaches_sustain (p : AdsrRates) (hD : 0 < p.decay) :
    ∀ k : ℕ, ∀ l : ℚ, l - p.sustain ≤ k * p.decay →
      ∃ n : ℕ, (envStep p true)^[n] ⟨EnvStage.Decay, l⟩ = ⟨EnvStage.Sustain, p.sustain⟩ := by
  intro k
  induction k with
  | zero =>
    intro l hl
    have h1 : l - p.decay ≤ p.sustain := by push_cast at hl; linarith
    exact ⟨1, by simp [envStep, h1]⟩
  | succ k ih =>
    intro l hl
    by_cases h1 : l - p.decay ≤ p.sustain
    · exact ⟨1, by simp [envStep, h1]⟩
    · have step : envStep p true ⟨EnvStage.Decay, l⟩ = ⟨EnvStage.Decay, l - p.decay⟩ := by
        simp [envStep, h1]
      have hl' : (l - p.decay) - p.sustain ≤ k * p.decay := by push_cast at hl ⊢; linarith
      obtain ⟨n, hn⟩ := ih (l - p.decay) hl'
      exact ⟨n + 1, by rw [Function.iterate_succ_apply, step]; exact hn⟩

lemma release_reaches_idle (p : AdsrRates) (hR : 0 < p.release) :
    ∀ k : ℕ, ∀ l : ℚ, l ≤ k * p.release →
      ∃ n : ℕ, (envStep p false)^[n] ⟨EnvStage.Release, l⟩ = ⟨EnvStage.Idle, 0⟩ := by
  intro k
  induction k with
  | zero =>
    intro l hl
    have h1 : l - p.release ≤ 0 := by push_cast at hl; linarith
    exact ⟨1, by simp [envStep, h1]⟩
  | succ k ih =>
    intro l hl
    by_cases h1 : l - p.release ≤ 0
    · exact ⟨1, by simp [envStep, h1]⟩
    · have step : envStep p false ⟨EnvStage.Release, l⟩ = ⟨EnvStage.Release, l - p.release⟩ := by
        simp [envStep, h1]
      have hl' : l - p.release ≤ k * p.release := by push_cast at hl ⊢; linarith
      obtain ⟨n, hn⟩ := ih (l - p.release) hl'
      exact ⟨n + 1, by rw [Function.iterate_succ_apply, step]; exact hn⟩

/-- Claim C7: for every gate sequence, the envelope follows
Idle -(gate on)- Attack -(level 1)- Decay -(level sustain)- Sustain, with
the level monotone nondecreasing through Attack and then holding, and
gate-off from any non-Idle stage enters Release with the level monotone
nonincreasing, reaching 0 and then Idle. -/
theorem c7_adsr_state_machine (p : AdsrRates)
    (hA : 0 < p.attack) (hD : 0 < p.decay) (hR : 0 < p.release) :
    AdsrMachineSpec p := by
  have hrel : ∀ l : ℚ, ∃ n : ℕ,
      (envStep p false)^[n] ⟨EnvStage.Release, l⟩ = ⟨EnvStage.Idle, 0⟩ := by
    intro l
    obtain ⟨k, hk⟩ := exists_nat_ge (l / p.release)
    exact release_reaches_idle p hR k l ((div_le_iff₀ hR).mp hk)
  refine ⟨?_, ?_, ?_, ?_, ?_, ?_, ?_, ?_⟩
  · intro l
    exact ⟨rfl, rfl⟩
  · rintro ⟨st, l⟩ hst hl
    cases hst
    by_cases h1 : 1 ≤ l + p.attack
    · simp [envStep, h1]
      linarith
    · simp [envStep, h1]
      constructor
      · linarith
      · linarith
  · rintro ⟨st, l⟩ hst hl
    cases hst
    obtain ⟨k, hk⟩ := exists_nat_ge ((1 - l) / p.attack)
    exact attack_reaches_decay p hA k l ((div_le_iff₀ hA).mp hk)
  · rintro ⟨st, l⟩ hst hl
    cases hst
    by_cases h1 : l - p.decay ≤ p.sustain
    · simp [envStep, h1]
      exact hl
    · simp [envStep, h1]
      constructor
      · linarith
      · linarith
  · rintro ⟨st, l⟩ hst hl
    cases hst
    obtain ⟨k, hk⟩ := exists_nat_ge ((l - p.sustain) / p.decay)
    exact decay_reaches_sustain p hD k l ((div_le_iff₀ hD).mp hk)
  · rintro ⟨st, l⟩ hst
    cases hst
    rfl
  · rintro ⟨st, l⟩ hst hl
    cases st
    · exact absurd rfl hst
    · exact ⟨le_refl l, Or.inl rfl⟩
    · exact ⟨le_refl l, Or.inl rfl⟩
    · exact ⟨le_refl l, Or.inl rfl⟩
    · by_cases h1 : l - p.release ≤ 0
      · simp [envStep, h1]
        exact hl
      · simp [envStep, h1]
        linarith
  · rintro ⟨st, l⟩ hst hl
    cases st
    · exact absurd rfl hst
    · obtain ⟨n, hn⟩ := hrel l
      exact ⟨n + 1, by rw [Function.iterate_succ_apply]; exact hn⟩
    · obtain ⟨n, hn⟩ := hrel l
      exact ⟨n + 1, by rw [Function.iterate_succ_apply]; exact hn⟩
    · obtain ⟨n, hn⟩ := hrel l
      exact ⟨n + 1, by rw [Function.iterate_succ_apply]; exact hn⟩
    · exact hrel l

/-- Witness for C7: the contract holds at the concrete positive rates
attack 1/20, decay 1/10, release 1/8 with sustain level 1/2. -/
theorem c7_witness :
    (0 : ℚ) < 1 / 20 ∧ (0 : ℚ) < 1 / 10 ∧ (0 : ℚ) < 1 / 8 ∧
    AdsrMachineSpec ⟨1 / 20, 1 / 10, 1 / 8, 1 / 2⟩ :=
  ⟨by norm_num, by norm_num, by norm_num,
    c7_adsr_state_machine ⟨1 / 20, 1 / 10, 1 / 8, 1 / 2⟩
      (by norm_num) (by norm_num) (by norm_num)⟩
